import Mathlib

/-!
# Verification of `src/compilerinstance.cpp` (trailofbits/abigen)

A shallow embedding of the compiler-session facade implemented in
`src/compilerinstance.cpp`.  External clang/LLVM library behaviour
(allocation, `std::filesystem::absolute`, the fresh clang objects produced
by `createSourceManager`/`createASTContext`, the parse engine itself) is
supplied through an explicit environment record `Env`; everything the
repository's own code does is translated function-by-function.
-/

namespace Abigen

/-- Modelled from the spec: the header `compilerinstance.h` that declares the
`Language` enumeration is not under `src/`; the spec (§3) says
"language ∈ {C, CXX}" and (§4.1) "any other value fails with
`InvalidLanguage`".  A C++ scoped enum may carry any underlying integer
value, so a third constructor stands for every unlisted value. -/
inductive Language where
  | C
  | CXX
  | unknown (value : Nat)
deriving DecidableEq, Repr

/-- Modelled from the spec: status codes of `Status` (spec §3). -/
inductive StatusCode where
  | Ok
  | MemoryAllocationFailure
  | InvalidLanguage
  | InvalidLanguageStandard
  | CompilationError
  | CompilationWarning
deriving DecidableEq, Repr

/-- Modelled from the spec: `Status` (spec §3) is
`{succeeded : bool, code, message}`.  The source constructs `Status(true)`
for success and `Status(false, code)` for failures, so the constructor
defaults are `code = Ok` and `message = ""`. -/
structure Status where
  succeeded : Bool
  code : StatusCode
  message : String
deriving DecidableEq, Repr

/-- Modelled from the spec: the include-path profile (spec §3):
root path, resource dir, and two per-language ordered path-list maps. -/
structure Profile where
  root_path : String
  resource_dir : String
  internal_isystem : List (Language × List String)
  internal_externc_isystem : List (Language × List String)

/-- Modelled from the spec: `CompilerInstanceSettings` (spec §3): language,
integer standard-version code, GNU-extension toggle, profile, extra
include folders. -/
structure CompilerInstanceSettings where
  language : Language
  language_standard : Int
  enable_gnu_extensions : Bool
  profile : Profile
  additional_include_folders : List String

/-- Lookup in a per-language path map (`std::map::find`). -/
def Profile.findPaths (m : List (Language × List String)) (l : Language) :
    Option (List String) :=
  match m with
  | [] => none
  | (l', ps) :: rest => if l' = l then some ps else Profile.findPaths rest l

/-- `clang::frontend::IncludeDirGroup` values used by the source. -/
inductive IncludeDirGroup where
  | System
  | ExternCSystem
deriving DecidableEq, Repr

/-- The `clang::LangOptions` fields assigned by the source
(`compilerinstance.cpp` lines 187-248).  clang stores them as 0/1
bitfields, mirrored here as `Nat`. -/
structure LangOptions where
  CPlusPlus : Nat
  RTTI : Nat
  CXXExceptions : Nat
  GNUMode : Nat
  GNUKeywords : Nat
  Bool : Nat
deriving DecidableEq, Repr

/-- `clang::InputKind` as used by the source (C or C++ frontend input). -/
inductive InputKind where
  | C
  | CXX
deriving DecidableEq, Repr

/-- The `clang::LangStandard::Kind` values the source selects. -/
inductive LangStandard where
  | lang_c89
  | lang_c94
  | lang_c99
  | lang_c11
  | lang_cxx98
  | lang_cxx11
  | lang_cxx14
deriving DecidableEq, Repr

/-- The `clang::HeaderSearchOptions` state touched by the source: the four
assigned scalar fields plus the ordered list of `AddPath` registrations.
A freshly constructed `clang::HeaderSearchOptions` has no user entries,
so the path list starts empty. -/
structure HeaderSearchOptions where
  UseBuiltinIncludes : Nat
  UseStandardSystemIncludes : Nat
  UseStandardCXXIncludes : Nat
  ResourceDir : String
  paths : List (String × IncludeDirGroup)
deriving DecidableEq, Repr

/-- `HeaderSearchOptions::AddPath` appends one (path, group) entry. -/
def HeaderSearchOptions.AddPath (h : HeaderSearchOptions) (path : String)
    (group : IncludeDirGroup) : HeaderSearchOptions :=
  { h with paths := h.paths ++ [(path, group)] }

/-- `std::filesystem::path` concatenation `profile_root / path` followed by
`.string()`; pure string algebra, no filesystem access. -/
def pathJoin (root rel : String) : String :=
  root ++ "/" ++ rel

/-- An opaque pointer-sized value (`void *`); address 0 is `nullptr`. -/
structure VoidPtr where
  addr : Nat
deriving DecidableEq, Repr

/-- An opaque `clang::Decl *` node handle. -/
structure Decl where
  id : Nat
deriving DecidableEq, Repr

/-- An opaque `clang::ASTContext` handle. -/
structure ASTContextT where
  id : Nat
deriving DecidableEq, Repr

/-- An opaque `clang::SourceManager` handle. -/
structure SourceManagerT where
  id : Nat
deriving DecidableEq, Repr

/-- Modelled from the spec: the `ASTCallbackType` enumeration lives in the
missing header; the spec (§3, §6) calls it "a closed, extensible
enumeration of AST node categories", currently dispatching `Function`,
and the source's own comment (line 296) speaks of "AST events such as
records or function declarations". -/
inductive ASTCallbackType where
  | Function
  | Record
deriving DecidableEq, Repr

/-- The callback signature (spec §6):
`(declarationNode, semanticContext, sourceLocationResolver, opaqueParameter) → bool`. -/
abbrev ASTCallbackFn : Type :=
  Decl → ASTContextT → SourceManagerT → VoidPtr → Bool

/-- Modelled from the spec: `ASTCallback` is a C function-pointer type, so a
stored value may be null; `none` is the null pointer. -/
abbrev ASTCallback : Type := Option ASTCallbackFn

/-- `ASTCallbackMap` = `std::unordered_map<ASTCallbackType, ASTCallback>`,
modelled as an association list whose keys are unique. -/
abbrev ASTCallbackMap : Type := List (ASTCallbackType × ASTCallback)

/-- `unordered_map::find`: first (only) entry for the key, if any. -/
def ASTCallbackMap.find (m : ASTCallbackMap) (k : ASTCallbackType) :
    Option ASTCallback :=
  match m with
  | [] => none
  | (k', v) :: rest => if k' = k then some v else ASTCallbackMap.find rest k

/-- `unordered_map::operator[]` followed by assignment: replace the entry
for the key if present, otherwise insert it. -/
def ASTCallbackMap.store (m : ASTCallbackMap) (k : ASTCallbackType)
    (v : ASTCallback) : ASTCallbackMap :=
  match m with
  | [] => [(k, v)]
  | (k', v') :: rest =>
      if k' = k then (k, v) :: rest
      else (k', v') :: ASTCallbackMap.store rest k v

/-- One callback invocation, recording exactly the four arguments the
dispatcher passes (`compilerinstance.cpp` line 70). -/
structure Invocation where
  declaration : Decl
  ast_context : ASTContextT
  source_manager : SourceManagerT
  parameter : VoidPtr
deriving DecidableEq, Repr

/-- `ASTVisitor::dispatchEvent` (lines 58-72), instrumented with the list of
callback invocations it performs: absent entry → `true`, no call; stored
null pointer → `true`, no call; otherwise call the callback with the
declaration, AST context, source manager and opaque parameter and return
its result. -/
def dispatchEvent (ast_callback_map : ASTCallbackMap)
    (ast_context : ASTContextT) (source_manager : SourceManagerT)
    (callback_parameter : VoidPtr) (type : ASTCallbackType)
    (declaration : Decl) : Bool × List Invocation :=
  match ASTCallbackMap.find ast_callback_map type with
  | none => (true, [])
  | some callback =>
      match callback with
      | none => (true, [])
      | some f =>
          (f declaration ast_context source_manager callback_parameter,
           [⟨declaration, ast_context, source_manager, callback_parameter⟩])

/-- `ASTVisitor::VisitFunctionDecl` (lines 88-91): dispatch the `Function`
event for the declaration. -/
def VisitFunctionDecl (ast_callback_map : ASTCallbackMap)
    (ast_context : ASTContextT) (source_manager : SourceManagerT)
    (callback_parameter : VoidPtr) (declaration : Decl) :
    Bool × List Invocation :=
  dispatchEvent ast_callback_map ast_context source_manager
    callback_parameter ASTCallbackType.Function declaration

/-- One declaration met by the black-box pre-order AST walk: either a
function declaration (dispatched through `VisitFunctionDecl`) or any
other declaration kind (walked over, never dispatched). -/
inductive VisitedNode where
  | functionDecl (declaration : Decl)
  | otherDecl (declaration : Decl)
deriving DecidableEq, Repr

/-- The visit step of `clang::RecursiveASTVisitor` for a single node. -/
def visitNode (ast_callback_map : ASTCallbackMap) (ast_context : ASTContextT)
    (source_manager : SourceManagerT) (callback_parameter : VoidPtr) :
    VisitedNode → Bool × List Invocation
  | VisitedNode.functionDecl d =>
      VisitFunctionDecl ast_callback_map ast_context source_manager
        callback_parameter d
  | VisitedNode.otherDecl _ => (true, [])

/-- The `RecursiveASTVisitor` traversal over the pre-order list of visited
declarations: a `Visit*` returning `false` aborts the whole walk;
`true` continues with the remaining nodes. -/
def runTraversal (ast_callback_map : ASTCallbackMap)
    (ast_context : ASTContextT) (source_manager : SourceManagerT)
    (callback_parameter : VoidPtr) :
    List VisitedNode → Bool × List Invocation
  | [] => (true, [])
  | n :: rest =>
      let step := visitNode ast_callback_map ast_context source_manager
        callback_parameter n
      if step.1 then
        let further := runTraversal ast_callback_map ast_context
          source_manager callback_parameter rest
        (further.1, step.2 ++ further.2)
      else
        (false, step.2)

/-- Outcome of one black-box `clang::ParseAST` run over a buffer: the
diagnostic counts and captured text of the installed
`TextDiagnosticPrinter`, plus the pre-order list of declarations the
`RecursiveASTVisitor` walk meets. -/
structure ParseOutcome where
  numErrors : Nat
  numWarnings : Nat
  output : String
  visitedDecls : List VisitedNode

/-- The external environment a session construction and parse runs in:
everything done by clang/LLVM library code rather than by this
repository.  `allocOk = false` makes `std::make_unique` throw
`std::bad_alloc`; `absolute` is `std::filesystem::absolute` with `none`
for a set `error_code`; `defaultTriple` is
`llvm::sys::getDefaultTargetTriple()`; `langOptions0` is the
default-constructed `clang::LangOptions` of a fresh compiler instance
(every field this module reads is overwritten before use);
`source_manager` / `ast_context` are the fresh objects
`createSourceManager` / `createASTContext` produce; `parse` is the
black-box parse engine. -/
structure Env where
  allocOk : Bool
  absolute : String → Option String
  defaultTriple : String
  langOptions0 : LangOptions
  source_manager : SourceManagerT
  ast_context : ASTContextT
  parse : String → ParseOutcome

/-- The C / C++ standard-version switches (lines 198-243): the `switch`
statements mapping the integer standard code to a
`clang::LangStandard::Kind`, `none` on the `default` branch. -/
def cxxLangStandardFor (language_standard : Int) : Option LangStandard :=
  if language_standard = 98 then some LangStandard.lang_cxx98
  else if language_standard = 11 then some LangStandard.lang_cxx11
  else if language_standard = 14 then some LangStandard.lang_cxx14
  else none

/-- The C standard-version switch (lines 223-243). -/
def cLangStandardFor (language_standard : Int) : Option LangStandard :=
  if language_standard = 89 then some LangStandard.lang_c89
  else if language_standard = 94 then some LangStandard.lang_c94
  else if language_standard = 99 then some LangStandard.lang_c99
  else if language_standard = 11 then some LangStandard.lang_c11
  else none

/-- The dialect-configuration block (lines 187-244): per-branch assignments
to `CPlusPlus`/`RTTI`/`CXXExceptions`, choice of input kind, and the
standard-version switch; `none` when the switch hits `default`
(`InvalidLanguageStandard`).  The `else` branch is the C branch, exactly
as in the source (an invalid language never reaches this point). -/
def configureDialect (settings : CompilerInstanceSettings)
    (language_options : LangOptions) :
    Option (LangOptions × InputKind × LangStandard) :=
  if settings.language = Language.CXX then
    let o := { language_options with
      CPlusPlus := 1, RTTI := 1, CXXExceptions := 1 }
    match cxxLangStandardFor settings.language_standard with
    | none => none
    | some std => some (o, InputKind.CXX, std)
  else
    let o := { language_options with
      CPlusPlus := 0, RTTI := 0, CXXExceptions := 0 }
    match cLangStandardFor settings.language_standard with
    | none => none
    | some std => some (o, InputKind.C, std)

/-- The fully configured `clang::CompilerInstance` state observable through
the source's construction steps.  `language_options` holds the dialect
fields as configured by this module (lines 187-248); the subsequent
`setLangDefaults` library call (line 251), `CreateTargetInfo`,
`createDiagnostics`, `createFileManager`, `createSourceManager`,
`createPreprocessor`, `initializeBuiltins` and `createASTContext` are
external engine steps (spec §1 treats the engine as a black box); the
arguments this module hands them are recorded here. -/
structure ClangCompilerInstance where
  header_search_options : HeaderSearchOptions
  language_options : LangOptions
  input_kind : InputKind
  language_standard : LangStandard
  target_triple : String
  use_predefines : Bool
  consumer_installed : Bool
  source_manager : SourceManagerT
  ast_context : ASTContextT

/-- `createClangCompilerInstance` (lines 123-288).  Returns the status and
the out-parameter `compiler`: `none` models the unique_ptr left null
(it is `reset()` on entry and assigned only on the success path). -/
def createClangCompilerInstance (env : Env)
    (settings : CompilerInstanceSettings) : Status × Option ClangCompilerInstance :=
  if env.allocOk = false then
    (⟨false, StatusCode.MemoryAllocationFailure, ""⟩, none)
  else
    let header_search_options : HeaderSearchOptions :=
      { UseBuiltinIncludes := 0
        UseStandardSystemIncludes := 0
        UseStandardCXXIncludes := 0
        ResourceDir := settings.profile.resource_dir
        paths := [] }
    if settings.language ≠ Language.C ∧ settings.language ≠ Language.CXX then
      (⟨false, StatusCode.InvalidLanguage, ""⟩, none)
    else
      let profile_root := settings.profile.root_path
      let header_search_options :=
        match Profile.findPaths settings.profile.internal_isystem
            settings.language with
        | none => header_search_options
        | some path_list =>
            path_list.foldl
              (fun h path =>
                h.AddPath (pathJoin profile_root path) IncludeDirGroup.System)
              header_search_options
      let header_search_options :=
        match Profile.findPaths settings.profile.internal_externc_isystem
            settings.language with
        | none => header_search_options
        | some path_list =>
            path_list.foldl
              (fun h path =>
                h.AddPath (pathJoin profile_root path)
                  IncludeDirGroup.ExternCSystem)
              header_search_options
      let header_search_options :=
        settings.additional_include_folders.foldl
          (fun h path =>
            match env.absolute path with
            | some absolute_path =>
                h.AddPath absolute_path IncludeDirGroup.System
            | none => h)
          header_search_options
      match configureDialect settings env.langOptions0 with
      | none => (⟨false, StatusCode.InvalidLanguageStandard, ""⟩, none)
      | some (language_options, input_kind, language_standard) =>
          let language_options := { language_options with
            GNUMode := if settings.enable_gnu_extensions then 1 else 0
            GNUKeywords := 1
            Bool := 1 }
          (⟨true, StatusCode.Ok, ""⟩,
           some
             { header_search_options := header_search_options
               language_options := language_options
               input_kind := input_kind
               language_standard := language_standard
               target_triple := env.defaultTriple
               use_predefines := false
               consumer_installed := true
               source_manager := env.source_manager
               ast_context := env.ast_context })

/-- `CompilerInstance::PrivateData` (lines 292-302): the facade's entire
persistent state — settings, callback map, opaque callback parameter. -/
structure PrivateData where
  compiler_settings : CompilerInstanceSettings
  ast_callback_map : ASTCallbackMap
  callback_parameter : VoidPtr

/-- `CompilerInstance::registerASTCallback` (lines 329-332):
`d->ast_callback_map[type] = callback`. -/
def registerASTCallback (d : PrivateData) (type : ASTCallbackType)
    (callback : ASTCallback) : PrivateData :=
  { d with
    ast_callback_map := ASTCallbackMap.store d.ast_callback_map type callback }

/-- `CompilerInstance::setASTCallbackParameter` (lines 334-336). -/
def setASTCallbackParameter (d : PrivateData) (user_defined : VoidPtr) :
    PrivateData :=
  { d with callback_parameter := user_defined }

/-- Result of one `processBuffer` call: the returned status, the list of
user-callback invocations performed, whether `clang::ParseAST` ran, and
the facade state after the call. -/
structure ProcessResult where
  status : Status
  invocations : List Invocation
  parsed : Bool
  state : PrivateData

/-- `CompilerInstance::processBuffer` (lines 338-384): construct a fresh
session; on failure return that status unchanged (no parse, no
callbacks).  Otherwise run the black-box parse (which drives the
traversal and the dispatcher) and classify the diagnostic counts:
errors → `CompilationError` (failed) with the captured text, else
warnings → `CompilationWarning` (succeeded) with the captured text,
else `Ok` with an empty message.  The body never writes to `d`, so the
facade state is returned unchanged. -/
def processBuffer (env : Env) (d : PrivateData) (buffer : String) :
    ProcessResult :=
  let created := createClangCompilerInstance env d.compiler_settings
  if created.1.succeeded = false then
    { status := created.1, invocations := [], parsed := false, state := d }
  else
    match created.2 with
    | none =>
        -- dead branch: construction never succeeds with a null instance
        { status := created.1, invocations := [], parsed := false, state := d }
    | some compiler =>
        let outcome := env.parse buffer
        let walk := runTraversal d.ast_callback_map compiler.ast_context
          compiler.source_manager d.callback_parameter outcome.visitedDecls
        if outcome.numErrors ≠ 0 then
          { status := ⟨false, StatusCode.CompilationError, outcome.output⟩
            invocations := walk.2, parsed := true, state := d }
        else if outcome.numWarnings ≠ 0 then
          { status := ⟨true, StatusCode.CompilationWarning, outcome.output⟩
            invocations := walk.2, parsed := true, state := d }
        else
          { status := ⟨true, StatusCode.Ok, ""⟩
            invocations := walk.2, parsed := true, state := d }

/-! ## Derived vocabulary for the theorems

Closed forms of the include-path and dialect configuration the builder
produces, used to state its result. -/

/-- The profile include paths the builder registers, in configured order:
the `internal_isystem` list (System group) then the
`internal_externc_isystem` list (ExternCSystem group), each resolved
against the profile root. -/
def systemProfilePaths (settings : CompilerInstanceSettings) :
    List (String × IncludeDirGroup) :=
  (match Profile.findPaths settings.profile.internal_isystem
      settings.language with
   | none => []
   | some pl =>
       pl.map (fun p =>
         (pathJoin settings.profile.root_path p, IncludeDirGroup.System))) ++
  (match Profile.findPaths settings.profile.internal_externc_isystem
      settings.language with
   | none => []
   | some pl =>
       pl.map (fun p =>
         (pathJoin settings.profile.root_path p,
          IncludeDirGroup.ExternCSystem)))

/-- The additional include folders that survive absolute-path resolution,
registered in the System group. -/
def additionalIncludePaths (env : Env)
    (settings : CompilerInstanceSettings) : List (String × IncludeDirGroup) :=
  (settings.additional_include_folders.filterMap env.absolute).map
    (fun s => (s, IncludeDirGroup.System))

/-- The header-search state a successful construction ends with. -/
def builtHeaderSearchOptions (env : Env)
    (settings : CompilerInstanceSettings) : HeaderSearchOptions :=
  { UseBuiltinIncludes := 0
    UseStandardSystemIncludes := 0
    UseStandardCXXIncludes := 0
    ResourceDir := settings.profile.resource_dir
    paths := systemProfilePaths settings ++ additionalIncludePaths env settings }

/-- The final dialect-option assignments applied after the standard switch
(lines 246-248). -/
def builtLangOptions (settings : CompilerInstanceSettings)
    (lo : LangOptions) : LangOptions :=
  { lo with
    GNUMode := if settings.enable_gnu_extensions then 1 else 0
    GNUKeywords := 1
    Bool := 1 }

/-! ## Concrete fixtures (used by the witness theorems) -/

/-- An empty include profile. -/
def wProfile : Profile := ⟨"", "", [], []⟩

/-- C99 settings over the empty profile. -/
def wSettingsC : CompilerInstanceSettings :=
  ⟨Language.C, 99, false, wProfile, []⟩

/-- C++11 settings over the empty profile. -/
def wSettingsCXX : CompilerInstanceSettings :=
  ⟨Language.CXX, 11, true, wProfile, []⟩

/-- Settings whose language is neither C nor C++. -/
def wSettingsBadLang : CompilerInstanceSettings :=
  ⟨Language.unknown 7, 99, false, wProfile, []⟩

/-- Settings with an unmapped C standard version. -/
def wSettingsBadStd : CompilerInstanceSettings :=
  ⟨Language.C, 17, false, wProfile, []⟩

/-- A benign environment: allocation succeeds, path resolution fails,
parsing yields no diagnostics and visits nothing. -/
def wEnv : Env :=
  ⟨true, fun _ => none, "", ⟨0, 0, 0, 0, 0, 0⟩, ⟨0⟩, ⟨0⟩,
   fun _ => ⟨0, 0, "", []⟩⟩

/-- The benign environment with a failing allocator. -/
def wEnvNoAlloc : Env := { wEnv with allocOk := false }

/-- The benign environment whose parse reports one error. -/
def wEnvErr : Env := { wEnv with parse := fun _ => ⟨1, 0, "e", []⟩ }

/-- The benign environment whose parse reports one warning. -/
def wEnvWarn : Env := { wEnv with parse := fun _ => ⟨0, 1, "w", []⟩ }

/-- A callback that always continues traversal. -/
def wCallbackTrue : ASTCallbackFn := fun _ _ _ _ => true

/-- A callback that always aborts traversal. -/
def wCallbackFalse : ASTCallbackFn := fun _ _ _ _ => false

/-- A table with a live `Function` callback. -/
def wMapFn : ASTCallbackMap :=
  [(ASTCallbackType.Function, some wCallbackTrue)]

/-- A table whose `Function` entry stores a null pointer. -/
def wMapNull : ASTCallbackMap := [(ASTCallbackType.Function, none)]

/-- Concrete opaque handles. -/
def wDecl : Decl := ⟨1⟩

def wCtx : ASTContextT := ⟨2⟩

def wSm : SourceManagerT := ⟨3⟩

def wParam : VoidPtr := ⟨4⟩

/-- Facade state with C99 settings and an empty callback table. -/
def wData : PrivateData := ⟨wSettingsC, [], ⟨0⟩⟩

/-- Environment resolving the path "ok" and failing on every other path. -/
def wEnvAbs : Env :=
  { wEnv with absolute := fun s => if s = "ok" then some "/abs/ok" else none }

/-- C99 settings with one resolvable and one unresolvable include folder. -/
def wSettingsAdd : CompilerInstanceSettings :=
  { wSettingsC with additional_include_folders := ["ok", "bad"] }

/-- The instance a successful C++11 construction over the benign
environment produces. -/
def wInstCXX : ClangCompilerInstance :=
  { header_search_options := ⟨0, 0, 0, "", []⟩
    language_options := ⟨1, 1, 1, 1, 1, 1⟩
    input_kind := InputKind.CXX
    language_standard := LangStandard.lang_cxx11
    target_triple := ""
    use_predefines := false
    consumer_installed := true
    source_manager := ⟨0⟩
    ast_context := ⟨0⟩ }

/-! ## Helper lemmas -/

/-- The C++ standard switch succeeds exactly on 98, 11, 14. -/
theorem cxxLangStandardFor_isSome_iff (n : Int) :
    (cxxLangStandardFor n).isSome = true ↔ n ∈ ([98, 11, 14] : List Int) := by
  unfold cxxLangStandardFor
  split_ifs with h1 h2 h3 <;> simp_all

/-- The C standard switch succeeds exactly on 89, 94, 99, 11. -/
theorem cLangStandardFor_isSome_iff (n : Int) :
    (cLangStandardFor n).isSome = true ↔ n ∈ ([89, 94, 99, 11] : List Int) := by
  unfold cLangStandardFor
  split_ifs with h1 h2 h3 h4 <;> simp_all

/-- Dialect configuration succeeds exactly when the per-language standard
switch does. -/
theorem configureDialect_isSome (settings : CompilerInstanceSettings)
    (opts : LangOptions) :
    (configureDialect settings opts).isSome =
      if settings.language = Language.CXX
      then (cxxLangStandardFor settings.language_standard).isSome
      else (cLangStandardFor settings.language_standard).isSome := by
  unfold configureDialect
  split_ifs with h <;>
    (cases hs : cxxLangStandardFor settings.language_standard <;>
     cases hc : cLangStandardFor settings.language_standard <;> simp_all)

/-- The status returned by `createClangCompilerInstance`, as a chain of the
three guards the source checks in order. -/
theorem create_status (env : Env) (settings : CompilerInstanceSettings) :
    (createClangCompilerInstance env settings).1 =
      if env.allocOk = false then
        ⟨false, StatusCode.MemoryAllocationFailure, ""⟩
      else if settings.language ≠ Language.C ∧ settings.language ≠ Language.CXX then
        ⟨false, StatusCode.InvalidLanguage, ""⟩
      else if (configureDialect settings env.langOptions0).isSome then
        ⟨true, StatusCode.Ok, ""⟩
      else
        ⟨false, StatusCode.InvalidLanguageStandard, ""⟩ := by
  unfold createClangCompilerInstance
  by_cases h1 : env.allocOk = false
  · simp [h1]
  · by_cases h2 : settings.language ≠ Language.C ∧ settings.language ≠ Language.CXX
    · simp [h1, h2]
    · cases hd : configureDialect settings env.langOptions0 with
      | none => simp [h1, h2, hd]
      | some v =>
          obtain ⟨lo, ik, ls⟩ := v
          simp [h1, h2, hd]

/-- Construction hands out an instance exactly when the status succeeds. -/
theorem create_isSome_iff_succeeded (env : Env)
    (settings : CompilerInstanceSettings) :
    (createClangCompilerInstance env settings).2.isSome = true ↔
      (createClangCompilerInstance env settings).1.succeeded = true := by
  unfold createClangCompilerInstance
  by_cases h1 : env.allocOk = false
  · simp [h1]
  · by_cases h2 : settings.language ≠ Language.C ∧ settings.language ≠ Language.CXX
    · simp [h1, h2]
    · cases hd : configureDialect settings env.langOptions0 with
      | none => simp [h1, h2, hd]
      | some v =>
          obtain ⟨lo, ik, ls⟩ := v
          simp [h1, h2, hd]

/-- Folding `AddPath` over a list appends the mapped entries. -/
theorem foldl_AddPath_map (f : String → String) (g : IncludeDirGroup)
    (l : List String) (h : HeaderSearchOptions) :
    l.foldl (fun h path => h.AddPath (f path) g) h =
      { h with paths := h.paths ++ l.map (fun path => (f path, g)) } := by
  induction l generalizing h with
  | nil => simp
  | cons p rest ih =>
      rw [List.foldl_cons, ih]
      simp [HeaderSearchOptions.AddPath]

/-- Folding the guarded `AddPath` of the additional-include loop appends
exactly the entries whose absolute-path resolution succeeds. -/
theorem foldl_AddPath_filterMap (abs : String → Option String)
    (l : List String) (h : HeaderSearchOptions) :
    l.foldl (fun h path =>
        match abs path with
        | some absolute_path =>
            h.AddPath absolute_path IncludeDirGroup.System
        | none => h) h =
      { h with paths := h.paths ++
          (l.filterMap abs).map (fun s => (s, IncludeDirGroup.System)) } := by
  induction l generalizing h with
  | nil => simp
  | cons p rest ih =>
      rw [List.foldl_cons]
      cases ha : abs p with
      | none =>
          simp only [ha]
          rw [ih]
          simp [ha]
      | some a =>
          simp only [ha]
          rw [ih]
          simp [ha, HeaderSearchOptions.AddPath]

/-- Full characterization of `createClangCompilerInstance`: the three guards
in source order, and on success the completely configured instance. -/
theorem create_result (env : Env) (settings : CompilerInstanceSettings) :
    createClangCompilerInstance env settings =
      if env.allocOk = false then
        (⟨false, StatusCode.MemoryAllocationFailure, ""⟩, none)
      else if settings.language ≠ Language.C ∧ settings.language ≠ Language.CXX then
        (⟨false, StatusCode.InvalidLanguage, ""⟩, none)
      else
        match configureDialect settings env.langOptions0 with
        | none => (⟨false, StatusCode.InvalidLanguageStandard, ""⟩, none)
        | some (lo, ik, ls) =>
            (⟨true, StatusCode.Ok, ""⟩,
             some
               { header_search_options := builtHeaderSearchOptions env settings
                 language_options := builtLangOptions settings lo
                 input_kind := ik
                 language_standard := ls
                 target_triple := env.defaultTriple
                 use_predefines := false
                 consumer_installed := true
                 source_manager := env.source_manager
                 ast_context := env.ast_context }) := by
  unfold createClangCompilerInstance
  by_cases h1 : env.allocOk = false
  · simp [h1]
  · by_cases h2 : settings.language ≠ Language.C ∧ settings.language ≠ Language.CXX
    · simp [h1, h2]
    · cases hd : configureDialect settings env.langOptions0 with
      | none =>
          cases hi : Profile.findPaths settings.profile.internal_isystem
              settings.language <;>
            cases he : Profile.findPaths
                settings.profile.internal_externc_isystem settings.language <;>
              simp [h1, h2, hd, hi, he]
      | some v =>
          obtain ⟨lo, ik, ls⟩ := v
          cases hi : Profile.findPaths settings.profile.internal_isystem
              settings.language <;>
            cases he : Profile.findPaths
                settings.profile.internal_externc_isystem settings.language <;>
              simp [h1, h2, hd, hi, he, foldl_AddPath_map,
                foldl_AddPath_filterMap, builtHeaderSearchOptions,
                builtLangOptions, systemProfilePaths, additionalIncludePaths]

/-- Storing a callback makes it the one found for its kind. -/
theorem find_store_self (m : ASTCallbackMap) (k : ASTCallbackType)
    (v : ASTCallback) :
    ASTCallbackMap.find (ASTCallbackMap.store m k v) k = some v := by
  induction m with
  | nil => simp [ASTCallbackMap.store, ASTCallbackMap.find]
  | cons e rest ih =>
      obtain ⟨a, b⟩ := e
      by_cases h : a = k <;>
        simp [ASTCallbackMap.store, ASTCallbackMap.find, h, ih]

/-- Storing a callback leaves every other kind's entry unchanged. -/
theorem find_store_ne (m : ASTCallbackMap) (k k' : ASTCallbackType)
    (v : ASTCallback) (h : k' ≠ k) :
    ASTCallbackMap.find (ASTCallbackMap.store m k v) k' =
      ASTCallbackMap.find m k' := by
  induction m with
  | nil =>
      simp [ASTCallbackMap.store, ASTCallbackMap.find, Ne.symm h]
  | cons e rest ih =>
      obtain ⟨a, b⟩ := e
      by_cases ha : a = k
      · subst ha
        simp [ASTCallbackMap.store, ASTCallbackMap.find, Ne.symm h]
      · simp [ASTCallbackMap.store, ASTCallbackMap.find, ha, ih]

/-- Two stores to the same kind collapse to the last one. -/
theorem store_store (m : ASTCallbackMap) (k : ASTCallbackType)
    (f g : ASTCallback) :
    ASTCallbackMap.store (ASTCallbackMap.store m k f) k g =
      ASTCallbackMap.store m k g := by
  induction m with
  | nil => simp [ASTCallbackMap.store]
  | cons e rest ih =>
      obtain ⟨a, b⟩ := e
      by_cases h : a = k <;> simp [ASTCallbackMap.store, h, ih]

/-- A kind absent from the keys contributes no entries. -/
theorem not_mem_keys_filter (m : ASTCallbackMap) (k : ASTCallbackType)
    (h : k ∉ List.map Prod.fst m) :
    List.filter (fun e => e.1 == k) m = [] := by
  induction m with
  | nil => rfl
  | cons e rest ih =>
      obtain ⟨a, b⟩ := e
      simp only [List.map_cons, List.mem_cons] at h
      push_neg at h
      have ha : (a == k) = false := by
        simp [Ne.symm h.1]
      simp [List.filter_cons, ha, ih h.2]

/-- With unique keys, after a store the entries for the stored kind are
exactly the stored one: registration replaces, it does not stack. -/
theorem filter_store (m : ASTCallbackMap) (k : ASTCallbackType)
    (g : ASTCallback) (hnodup : (List.map Prod.fst m).Nodup) :
    List.filter (fun e => e.1 == k) (ASTCallbackMap.store m k g) = [(k, g)] := by
  induction m with
  | nil => simp [ASTCallbackMap.store]
  | cons e rest ih =>
      obtain ⟨a, b⟩ := e
      simp only [List.map_cons, List.nodup_cons] at hnodup
      by_cases h : a = k
      · subst h
        simp [ASTCallbackMap.store, List.filter_cons,
          not_mem_keys_filter rest a hnodup.1]
      · have ha : (a == k) = false := by simp [h]
        simp [ASTCallbackMap.store, h, List.filter_cons, ha, ih hnodup.2]

/-- The dialect branch fixes `CPlusPlus`/`RTTI`/`CXXExceptions` and the
input kind per language. -/
theorem configureDialect_fields (settings : CompilerInstanceSettings)
    (opts : LangOptions) (lo : LangOptions) (ik : InputKind)
    (ls : LangStandard)
    (h : configureDialect settings opts = some (lo, ik, ls)) :
    (settings.language = Language.CXX →
      lo.CPlusPlus = 1 ∧ lo.RTTI = 1 ∧ lo.CXXExceptions = 1 ∧
      ik = InputKind.CXX) ∧
    (settings.language ≠ Language.CXX →
      lo.CPlusPlus = 0 ∧ lo.RTTI = 0 ∧ lo.CXXExceptions = 0 ∧
      ik = InputKind.C) := by
  unfold configureDialect at h
  by_cases hL : settings.language = Language.CXX
  · rw [if_pos hL] at h
    cases hs : cxxLangStandardFor settings.language_standard with
    | none => rw [hs] at h; simp at h
    | some std =>
        rw [hs] at h
        simp only [Option.some.injEq, Prod.mk.injEq] at h
        obtain ⟨ho, hik, hls⟩ := h
        subst ho
        subst hik
        simp [hL]
  · rw [if_neg hL] at h
    cases hs : cLangStandardFor settings.language_standard with
    | none => rw [hs] at h; simp at h
    | some std =>
        rw [hs] at h
        simp only [Option.some.injEq, Prod.mk.injEq] at h
        obtain ⟨ho, hik, hls⟩ := h
        subst ho
        subst hik
        simp [hL]

/-! ## Claim theorems -/

/-- C1: with a working allocator, session construction fails with
`InvalidLanguage` iff the settings' language is neither C nor C++; for a
valid language it fails with `InvalidLanguageStandard` iff the standard is
outside the fixed per-language table (C: 89, 94, 99, 11; C++: 98, 11, 14);
and for every valid (language, standard) pair neither of these two codes
is returned. -/
theorem createClang_config_error_codes (env : Env)
    (settings : CompilerInstanceSettings) (halloc : env.allocOk = true) :
    (((createClangCompilerInstance env settings).1.succeeded = false ∧
      (createClangCompilerInstance env settings).1.code =
        StatusCode.InvalidLanguage) ↔
      (settings.language ≠ Language.C ∧ settings.language ≠ Language.CXX)) ∧
    (settings.language = Language.C →
      (((createClangCompilerInstance env settings).1.succeeded = false ∧
        (createClangCompilerInstance env settings).1.code =
          StatusCode.InvalidLanguageStandard) ↔
        settings.language_standard ∉ ([89, 94, 99, 11] : List Int))) ∧
    (settings.language = Language.CXX →
      (((createClangCompilerInstance env settings).1.succeeded = false ∧
        (createClangCompilerInstance env settings).1.code =
          StatusCode.InvalidLanguageStandard) ↔
        settings.language_standard ∉ ([98, 11, 14] : List Int))) ∧
    ((settings.language = Language.C ∧
        settings.language_standard ∈ ([89, 94, 99, 11] : List Int)) ∨
     (settings.language = Language.CXX ∧
        settings.language_standard ∈ ([98, 11, 14] : List Int)) →
      (createClangCompilerInstance env settings).1.code ≠
        StatusCode.InvalidLanguage ∧
      (createClangCompilerInstance env settings).1.code ≠
        StatusCode.InvalidLanguageStandard) := by
  rw [create_status, configureDialect_isSome]
  cases hL : settings.language with
  | C =>
      by_cases hm : settings.language_standard ∈ ([89, 94, 99, 11] : List Int) <;>
        simp [halloc, hm, cLangStandardFor_isSome_iff]
  | CXX =>
      by_cases hm : settings.language_standard ∈ ([98, 11, 14] : List Int) <;>
        simp [halloc, hm, cxxLangStandardFor_isSome_iff]
  | unknown n => simp [halloc]

/-- C1 witness: an unknown language yields `InvalidLanguage`, C with
standard 17 yields `InvalidLanguageStandard`, and C99 yields neither. -/
theorem createClang_config_error_codes_witness :
    ((createClangCompilerInstance wEnv wSettingsBadLang).1.succeeded = false ∧
     (createClangCompilerInstance wEnv wSettingsBadLang).1.code =
       StatusCode.InvalidLanguage) ∧
    ((createClangCompilerInstance wEnv wSettingsBadStd).1.succeeded = false ∧
     (createClangCompilerInstance wEnv wSettingsBadStd).1.code =
       StatusCode.InvalidLanguageStandard) ∧
    ((createClangCompilerInstance wEnv wSettingsC).1.code ≠
       StatusCode.InvalidLanguage ∧
     (createClangCompilerInstance wEnv wSettingsC).1.code ≠
       StatusCode.InvalidLanguageStandard) :=
  ⟨(createClang_config_error_codes wEnv wSettingsBadLang rfl).1.mpr
      (by decide),
   ((createClang_config_error_codes wEnv wSettingsBadStd rfl).2.1 rfl).mpr
      (by decide),
   (createClang_config_error_codes wEnv wSettingsC rfl).2.2.2
      (Or.inl ⟨rfl, by decide⟩)⟩

/-- C4: session construction is all-or-nothing — an unsuccessful status
leaves the out-parameter null, and a non-null instance is handed out
only together with a successful status. -/
theorem createClang_all_or_nothing (env : Env)
    (settings : CompilerInstanceSettings) :
    ((createClangCompilerInstance env settings).1.succeeded = false →
      (createClangCompilerInstance env settings).2 = none) ∧
    (∀ c, (createClangCompilerInstance env settings).2 = some c →
      (createClangCompilerInstance env settings).1.succeeded = true) := by
  constructor
  · intro hf
    cases hx : (createClangCompilerInstance env settings).2 with
    | none => rfl
    | some c =>
        have hs : (createClangCompilerInstance env settings).2.isSome = true := by
          simp [hx]
        rw [create_isSome_iff_succeeded] at hs
        rw [hs] at hf
        cases hf
  · intro c hc
    have hs : (createClangCompilerInstance env settings).2.isSome = true := by
      simp [hc]
    exact (create_isSome_iff_succeeded env settings).mp hs

/-- C4 witness: a failing allocation returns an unsuccessful status and a
null out-parameter. -/
theorem createClang_all_or_nothing_witness :
    (createClangCompilerInstance wEnvNoAlloc wSettingsC).2 = none :=
  (createClang_all_or_nothing wEnvNoAlloc wSettingsC).1 (by decide)

/-- C6: on a successful construction, C++ settings leave C++ mode, RTTI and
C++ exceptions enabled and C settings leave all three disabled; GNU
keyword recognition and the builtin boolean type are always enabled, and
GNU-extension mode follows the settings flag. -/
theorem createClang_dialect_options (env : Env)
    (settings : CompilerInstanceSettings) (c : ClangCompilerInstance)
    (h : (createClangCompilerInstance env settings).2 = some c) :
    (settings.language = Language.CXX →
      c.language_options.CPlusPlus = 1 ∧
      c.language_options.RTTI = 1 ∧
      c.language_options.CXXExceptions = 1) ∧
    (settings.language = Language.C →
      c.language_options.CPlusPlus = 0 ∧
      c.language_options.RTTI = 0 ∧
      c.language_options.CXXExceptions = 0) ∧
    c.language_options.GNUKeywords = 1 ∧
    c.language_options.Bool = 1 ∧
    c.language_options.GNUMode =
      (if settings.enable_gnu_extensions then 1 else 0) := by
  rw [create_result] at h
  by_cases h1 : env.allocOk = false
  · rw [if_pos h1] at h
    cases h
  · rw [if_neg h1] at h
    by_cases h2 : settings.language ≠ Language.C ∧ settings.language ≠ Language.CXX
    · rw [if_pos h2] at h
      cases h
    · rw [if_neg h2] at h
      cases hd : configureDialect settings env.langOptions0 with
      | none =>
          rw [hd] at h
          cases h
      | some v =>
          obtain ⟨lo, ik, ls⟩ := v
          rw [hd] at h
          simp only [Option.some.injEq] at h
          subst h
          have hf := configureDialect_fields settings env.langOptions0 lo ik ls hd
          refine ⟨?_, ?_, ?_, ?_, ?_⟩
          · intro hL
            have hfl := hf.1 hL
            simp only [builtLangOptions]
            exact ⟨hfl.1, hfl.2.1, hfl.2.2.1⟩
          · intro hL
            have hne : settings.language ≠ Language.CXX := by simp [hL]
            have hfl := hf.2 hne
            simp only [builtLangOptions]
            exact ⟨hfl.1, hfl.2.1, hfl.2.2.1⟩
          · simp [builtLangOptions]
          · simp [builtLangOptions]
          · simp [builtLangOptions]

/-- C6 witness: the concrete C++11 construction has all dialect fields as
claimed. -/
theorem createClang_dialect_options_witness :
    (wInstCXX.language_options.CPlusPlus = 1 ∧
     wInstCXX.language_options.RTTI = 1 ∧
     wInstCXX.language_options.CXXExceptions = 1) ∧
    wInstCXX.language_options.GNUKeywords = 1 ∧
    wInstCXX.language_options.Bool = 1 ∧
    wInstCXX.language_options.GNUMode = 1 :=
  have h := createClang_dialect_options wEnv wSettingsCXX wInstCXX rfl
  ⟨h.1 rfl, h.2.2.1, h.2.2.2.1, Eq.trans h.2.2.2.2 rfl⟩

/-- C8: on a successful construction the registered paths end with exactly
the additional include folders whose absolute-path resolution succeeded,
each in the System group (failing entries silently skipped); and the
returned status never depends on the additional folder list, so no
error status results from a failing entry. -/
theorem createClang_additional_include_folders (env : Env)
    (settings : CompilerInstanceSettings)
    (h : (createClangCompilerInstance env settings).1.succeeded = true) :
    (Option.map (fun c => c.header_search_options.paths)
        (createClangCompilerInstance env settings).2) =
      some (systemProfilePaths settings ++
        List.map (fun s => (s, IncludeDirGroup.System))
          (List.filterMap env.absolute settings.additional_include_folders)) ∧
    (∀ folders,
      (createClangCompilerInstance env
          { settings with additional_include_folders := folders }).1 =
        (createClangCompilerInstance env settings).1) := by
  constructor
  · rw [create_status] at h
    rw [create_result]
    by_cases h1 : env.allocOk = false
    · rw [if_pos h1] at h
      cases h
    · rw [if_neg h1] at h
      rw [if_neg h1]
      by_cases h2 : settings.language ≠ Language.C ∧ settings.language ≠ Language.CXX
      · rw [if_pos h2] at h
        cases h
      · rw [if_neg h2] at h
        rw [if_neg h2]
        cases hd : configureDialect settings env.langOptions0 with
        | none => simp [hd] at h
        | some v =>
            obtain ⟨lo, ik, ls⟩ := v
            simp [builtHeaderSearchOptions, additionalIncludePaths]
  · intro folders
    rw [create_status env { settings with additional_include_folders := folders },
        create_status env settings]
    rfl

/-- C8 witness: with folders ["ok", "bad"] where only "ok" resolves, the
paths end with the single resolved entry and the status matches the one
with no additional folders at all. -/
theorem createClang_additional_include_folders_witness :
    (Option.map (fun c => c.header_search_options.paths)
        (createClangCompilerInstance wEnvAbs wSettingsAdd).2) =
      some [("/abs/ok", IncludeDirGroup.System)] ∧
    (createClangCompilerInstance wEnvAbs
        { wSettingsAdd with additional_include_folders := [] }).1 =
      (createClangCompilerInstance wEnvAbs wSettingsAdd).1 :=
  have h := createClang_additional_include_folders wEnvAbs wSettingsAdd
    (by decide)
  ⟨Eq.trans h.1 (by decide), h.2 []⟩

/-- C2: when session construction succeeds (so the parse runs to
completion), `processBuffer` classifies the run by the diagnostic
counts: errors → failed `CompilationError` with the captured text, else
warnings → succeeded `CompilationWarning` with the captured text, else
succeeded `Ok` with an empty message. -/
theorem processBuffer_diagnostic_classification (env : Env)
    (d : PrivateData) (buffer : String)
    (h : (createClangCompilerInstance env d.compiler_settings).1.succeeded =
      true) :
    ((env.parse buffer).numErrors ≠ 0 →
      (processBuffer env d buffer).status =
        ⟨false, StatusCode.CompilationError, (env.parse buffer).output⟩) ∧
    ((env.parse buffer).numErrors = 0 → (env.parse buffer).numWarnings ≠ 0 →
      (processBuffer env d buffer).status =
        ⟨true, StatusCode.CompilationWarning, (env.parse buffer).output⟩) ∧
    ((env.parse buffer).numErrors = 0 → (env.parse buffer).numWarnings = 0 →
      (processBuffer env d buffer).status = ⟨true, StatusCode.Ok, ""⟩) := by
  have hsome : (createClangCompilerInstance env d.compiler_settings).2.isSome =
      true :=
    (create_isSome_iff_succeeded env d.compiler_settings).mpr h
  obtain ⟨c, hc⟩ := Option.isSome_iff_exists.mp hsome
  unfold processBuffer
  refine ⟨?_, ?_, ?_⟩
  · intro he
    simp [h, hc, he]
  · intro he hw
    simp [h, hc, he, hw]
  · intro he hw
    simp [h, hc, he, hw]

/-- C2 witness: a one-error parse, a one-warning parse and a clean parse
are classified as claimed. -/
theorem processBuffer_diagnostic_classification_witness :
    (processBuffer wEnvErr wData "b").status =
      ⟨false, StatusCode.CompilationError, "e"⟩ ∧
    (processBuffer wEnvWarn wData "b").status =
      ⟨true, StatusCode.CompilationWarning, "w"⟩ ∧
    (processBuffer wEnv wData "b").status = ⟨true, StatusCode.Ok, ""⟩ :=
  ⟨(processBuffer_diagnostic_classification wEnvErr wData "b"
      (by decide)).1 (by decide),
   (processBuffer_diagnostic_classification wEnvWarn wData "b"
      (by decide)).2.1 (by decide) (by decide),
   (processBuffer_diagnostic_classification wEnv wData "b"
      (by decide)).2.2 (by decide) (by decide)⟩

/-- C5: when session construction fails, `processBuffer` returns exactly
the construction status, runs no parse, and invokes no callback. -/
theorem processBuffer_short_circuits_on_failure (env : Env)
    (d : PrivateData) (buffer : String)
    (h : (createClangCompilerInstance env d.compiler_settings).1.succeeded =
      false) :
    processBuffer env d buffer =
      { status := (createClangCompilerInstance env d.compiler_settings).1
        invocations := []
        parsed := false
        state := d } := by
  unfold processBuffer
  simp [h]

/-- C5 witness: with a failing allocator the call returns the allocation
failure unchanged, with no parse and no invocations. -/
theorem processBuffer_short_circuits_on_failure_witness :
    processBuffer wEnvNoAlloc wData "b" =
      { status := ⟨false, StatusCode.MemoryAllocationFailure, ""⟩
        invocations := []
        parsed := false
        state := wData } := by
  have h := processBuffer_short_circuits_on_failure wEnvNoAlloc wData "b"
    (by decide)
  rw [h]
  rfl

/-- C9: `processBuffer` leaves the facade's persistent state — settings,
callback table and opaque callback parameter, which is all the state
`PrivateData` holds — unchanged. -/
theorem processBuffer_preserves_facade_state (env : Env) (d : PrivateData)
    (buffer : String) :
    (processBuffer env d buffer).state.compiler_settings =
      d.compiler_settings ∧
    (processBuffer env d buffer).state.ast_callback_map =
      d.ast_callback_map ∧
    (processBuffer env d buffer).state.callback_parameter =
      d.callback_parameter ∧
    (processBuffer env d buffer).state = d := by
  have hs : (processBuffer env d buffer).state = d := by
    unfold processBuffer
    dsimp only
    repeat first | rfl | split
  exact ⟨by rw [hs], by rw [hs], by rw [hs], hs⟩

/-- C3: visiting a function declaration dispatches the `Function` entry of
the callback table: a registered callback is invoked with exactly the
declaration, AST context, source manager and opaque parameter, and the
visit returns its boolean result (`true` lets the walk continue,
`false` aborts it); with no entry for the kind nothing is invoked, the
visit returns `true`, and the walk continues unaffected. -/
theorem visitFunctionDecl_dispatch_contract (m : ASTCallbackMap)
    (ctx : ASTContextT) (sm : SourceManagerT) (p : VoidPtr) (decl : Decl) :
    (∀ f, ASTCallbackMap.find m ASTCallbackType.Function = some (some f) →
      VisitFunctionDecl m ctx sm p decl =
        (f decl ctx sm p, [⟨decl, ctx, sm, p⟩])) ∧
    (ASTCallbackMap.find m ASTCallbackType.Function = none →
      VisitFunctionDecl m ctx sm p decl = (true, [])) ∧
    (∀ rest, ASTCallbackMap.find m ASTCallbackType.Function = none →
      runTraversal m ctx sm p (VisitedNode.functionDecl decl :: rest) =
        runTraversal m ctx sm p rest) ∧
    (∀ f rest,
      ASTCallbackMap.find m ASTCallbackType.Function = some (some f) →
      f decl ctx sm p = true →
      runTraversal m ctx sm p (VisitedNode.functionDecl decl :: rest) =
        ((runTraversal m ctx sm p rest).1,
         ⟨decl, ctx, sm, p⟩ :: (runTraversal m ctx sm p rest).2)) ∧
    (∀ f rest,
      ASTCallbackMap.find m ASTCallbackType.Function = some (some f) →
      f decl ctx sm p = false →
      runTraversal m ctx sm p (VisitedNode.functionDecl decl :: rest) =
        (false, [⟨decl, ctx, sm, p⟩])) := by
  refine ⟨?_, ?_, ?_, ?_, ?_⟩
  · intro f hf
    simp [VisitFunctionDecl, dispatchEvent, hf]
  · intro hf
    simp [VisitFunctionDecl, dispatchEvent, hf]
  · intro rest hf
    simp [runTraversal, visitNode, VisitFunctionDecl, dispatchEvent, hf]
  · intro f rest hf hb
    simp [runTraversal, visitNode, VisitFunctionDecl, dispatchEvent, hf, hb]
  · intro f rest hf hb
    simp [runTraversal, visitNode, VisitFunctionDecl, dispatchEvent, hf, hb]

/-- C3 witness: with a registered always-continue callback, the visit
returns its result together with the single exact-argument invocation,
and a one-node walk records it. -/
theorem visitFunctionDecl_dispatch_contract_witness :
    VisitFunctionDecl wMapFn wCtx wSm wParam wDecl =
      (true, [⟨wDecl, wCtx, wSm, wParam⟩]) ∧
    runTraversal wMapFn wCtx wSm wParam [VisitedNode.functionDecl wDecl] =
      (true, [⟨wDecl, wCtx, wSm, wParam⟩]) :=
  have h := visitFunctionDecl_dispatch_contract wMapFn wCtx wSm wParam wDecl
  ⟨h.1 wCallbackTrue rfl, h.2.2.2.1 wCallbackTrue [] rfl rfl⟩

/-- C10: a stored null callback behaves exactly like an absent
registration: dispatch performs no call, returns `true`, and the walk
continues unaffected. -/
theorem dispatchEvent_null_callback (m : ASTCallbackMap)
    (ctx : ASTContextT) (sm : SourceManagerT) (p : VoidPtr)
    (type : ASTCallbackType) (decl : Decl) (rest : List VisitedNode)
    (h : ASTCallbackMap.find m type = some none) :
    dispatchEvent m ctx sm p type decl = (true, []) ∧
    (type = ASTCallbackType.Function →
      runTraversal m ctx sm p (VisitedNode.functionDecl decl :: rest) =
        runTraversal m ctx sm p rest) := by
  constructor
  · simp [dispatchEvent, h]
  · intro ht
    subst ht
    simp [runTraversal, visitNode, VisitFunctionDecl, dispatchEvent, h]

/-- C10 witness: a table whose `Function` entry is a null pointer
dispatches to nothing and keeps the walk going. -/
theorem dispatchEvent_null_callback_witness :
    dispatchEvent wMapNull wCtx wSm wParam ASTCallbackType.Function wDecl =
      (true, []) ∧
    runTraversal wMapNull wCtx wSm wParam
        [VisitedNode.functionDecl wDecl, VisitedNode.functionDecl wDecl] =
      runTraversal wMapNull wCtx wSm wParam [VisitedNode.functionDecl wDecl] :=
  have h := dispatchEvent_null_callback wMapNull wCtx wSm wParam
    ASTCallbackType.Function wDecl [VisitedNode.functionDecl wDecl] rfl
  ⟨h.1, h.2 rfl⟩

/-- C7: callback registration has last-wins replacement semantics —
registering `f` then `g` for the same kind leaves the table with `g` as
the kind's only entry, leaves every other kind's entry unchanged, and
touches no other facade state. -/
theorem registerASTCallback_last_wins (d : PrivateData)
    (k : ASTCallbackType) (f g : ASTCallback)
    (hnodup : (List.map Prod.fst d.ast_callback_map).Nodup) :
    ASTCallbackMap.find
        (registerASTCallback (registerASTCallback d k f) k g).ast_callback_map
        k = some g ∧
    (∀ k', k' ≠ k →
      ASTCallbackMap.find
          (registerASTCallback (registerASTCallback d k f) k g).ast_callback_map
          k' =
        ASTCallbackMap.find d.ast_callback_map k') ∧
    List.filter (fun e => e.1 == k)
        (registerASTCallback (registerASTCallback d k f) k g).ast_callback_map =
      [(k, g)] ∧
    (registerASTCallback (registerASTCallback d k f) k g).compiler_settings =
      d.compiler_settings ∧
    (registerASTCallback (registerASTCallback d k f) k g).callback_parameter =
      d.callback_parameter := by
  unfold registerASTCallback
  dsimp only
  rw [store_store]
  exact ⟨find_store_self _ _ _,
    fun k' h => find_store_ne _ _ _ _ h,
    filter_store _ _ _ hnodup, rfl, rfl⟩

/-- C7 witness: over the empty table, registering an abort-callback and
then a continue-callback for `Function` leaves exactly the latter, and
the `Record` kind is untouched. -/
theorem registerASTCallback_last_wins_witness :
    ASTCallbackMap.find
        (registerASTCallback
            (registerASTCallback wData ASTCallbackType.Function
              (some wCallbackFalse))
            ASTCallbackType.Function (some wCallbackTrue)).ast_callback_map
        ASTCallbackType.Function = some (some wCallbackTrue) ∧
    ASTCallbackMap.find
        (registerASTCallback
            (registerASTCallback wData ASTCallbackType.Function
              (some wCallbackFalse))
            ASTCallbackType.Function (some wCallbackTrue)).ast_callback_map
        ASTCallbackType.Record =
      ASTCallbackMap.find wData.ast_callback_map ASTCallbackType.Record ∧
    List.filter (fun e => e.1 == ASTCallbackType.Function)
        (registerASTCallback
            (registerASTCallback wData ASTCallbackType.Function
              (some wCallbackFalse))
            ASTCallbackType.Function (some wCallbackTrue)).ast_callback_map =
      [(ASTCallbackType.Function, some wCallbackTrue)] :=
  have h := registerASTCallback_last_wins wData ASTCallbackType.Function
    (some wCallbackFalse) (some wCallbackTrue) (by simp [wData])
  ⟨h.1, h.2.1 ASTCallbackType.Record (by decide), h.2.2.1⟩

end Abigen
